import Mathlib

/-!
Verification development for the BMW Market Analysis Platform sources
(frontend financial simulation, income analysis, market analysis, chart
rendering and chat-driven data editing).  JavaScript/TypeScript numbers are
modelled as rationals; a JavaScript division that would produce a non-finite
value (`NaN` or `±Infinity`) is modelled as `none`.
-/

namespace BMW

/-- JavaScript `Math.round`: round half toward positive infinity. -/
def jsRound (q : ℚ) : ℤ := ⌊q + 1 / 2⌋

/-- JavaScript division on finite numbers: a zero denominator yields a
non-finite value (`NaN` or `±Infinity`), modelled as `none`. -/
def jsDiv (a b : ℚ) : Option ℚ := if b = 0 then none else some (a / b)

/-- JavaScript `Number.prototype.toFixed(1)` on a finite decimal value:
one digit after the decimal point, rounding half away from zero. -/
def toFixed1 (q : ℚ) : String :=
  let n : ℤ := if 0 ≤ q then ⌊q * 10 + 1 / 2⌋ else -⌊-q * 10 + 1 / 2⌋
  let a : ℕ := n.natAbs
  let body : String := toString (a / 10) ++ "." ++ toString (a % 10)
  if n < 0 then "-" ++ body else body

/-! ### `components/income-analysis-section.tsx`, `generateAnalysis`

For each year of the SOM series (with its position `index`):
`salesVolume = Math.round(som * 0.2)`,
`yearCosts = totalCosts * (1 + index * 0.05)`, and the three revenue models
with their `yearly_revenue`, `yearly_profit`, `yearly_margin` entries. -/

/-- Source: `const salesVolume = Math.round(som * 0.2)` (20% of SOM). -/
def salesVolume (som : ℚ) : ℤ := jsRound (som * 0.2)

/-- Source: `const yearCosts = totalCosts * (1 + index * 0.05)`. -/
def yearCosts (totalCosts : ℚ) (index : ℕ) : ℚ := totalCosts * (1 + (index : ℚ) * 0.05)

/-- Source: `const royaltyRevenue = salesVolume * avgBundlePrice * (royaltyRate / 100)`. -/
def royaltyRevenue (som avgBundlePrice royaltyRate : ℚ) : ℚ :=
  (salesVolume som : ℚ) * avgBundlePrice * (royaltyRate / 100)

/-- Source: `royaltiesModel.yearly_revenue[year] = Math.round(royaltyRevenue)`. -/
def royaltiesYearlyRevenue (som price rate : ℚ) : ℤ :=
  jsRound (royaltyRevenue som price rate)

/-- Source: `royaltiesModel.yearly_profit[year] = Math.round(royaltyRevenue - yearCosts)`. -/
def royaltiesYearlyProfit (som price rate totalCosts : ℚ) (index : ℕ) : ℤ :=
  jsRound (royaltyRevenue som price rate - yearCosts totalCosts index)

/-- The margin expression shared by all three models:
`((revenue - yearCosts) / revenue) * 100`, with a zero revenue producing a
non-finite JavaScript value (modelled as `none`). -/
def jsMarginPct (revenue costs : ℚ) : Option ℚ :=
  (jsDiv (revenue - costs) revenue).map (fun q => q * 100)

/-- Source: `royaltiesModel.yearly_margin[year] = ((royaltyRevenue - yearCosts) / royaltyRevenue) * 100`. -/
def royaltiesYearlyMargin (som price rate totalCosts : ℚ) (index : ℕ) : Option ℚ :=
  jsMarginPct (royaltyRevenue som price rate) (yearCosts totalCosts index)

/-- Subscription model: `adjustedRevenue = subscribers * subscriptionPrice * 12 * (1 - churnRate / 100)`
with `subscribers = salesVolume`. -/
def subscriptionRevenue (som subPrice churn : ℚ) : ℚ :=
  (salesVolume som : ℚ) * subPrice * 12 * (1 - churn / 100)

/-- Source: `subscriptionModel.yearly_margin[year]`. -/
def subscriptionYearlyMargin (som subPrice churn totalCosts : ℚ) (index : ℕ) : Option ℚ :=
  jsMarginPct (subscriptionRevenue som subPrice churn) (yearCosts totalCosts index)

/-- Single-buy model: `totalSingleRevenue = singleBuyRevenue + singleBuyRevenue * (repeatPurchaseRate / 100)`
with `singleBuyRevenue = salesVolume * singleBuyPrice`. -/
def singleBuyRevenue (som sbPrice repeatRate : ℚ) : ℚ :=
  (salesVolume som : ℚ) * sbPrice + (salesVolume som : ℚ) * sbPrice * (repeatRate / 100)

/-- Source: `singleBuyModel.yearly_margin[year]`. -/
def singleBuyYearlyMargin (som sbPrice repeatRate totalCosts : ℚ) (index : ℕ) : Option ℚ :=
  jsMarginPct (singleBuyRevenue som sbPrice repeatRate) (yearCosts totalCosts index)

/-- The `years.forEach((year, index) => ...)` loop of `generateAnalysis`,
restricted to the Royalties model: for each `(year, som)` entry of the SOM
series it records `(year, yearly_revenue, yearly_profit, yearly_margin)`. -/
def genRoyalties (price rate totalCosts : ℚ) : ℕ → List (ℕ × ℚ) → List (ℕ × ℤ × ℤ × Option ℚ)
  | _, [] => []
  | index, (year, som) :: rest =>
      (year, royaltiesYearlyRevenue som price rate,
        royaltiesYearlyProfit som price rate totalCosts index,
        royaltiesYearlyMargin som price rate totalCosts index) ::
        genRoyalties price rate totalCosts (index + 1) rest

/-- From the spec's words, for comparison with the source: for the ROYALTY
archetype the revenue of horizon year `yearIdx` is unit volume × unit price ×
royalty rate × market-coverage fraction × take-rate fraction, compounded yearly
by the growth rate. -/
def specRoyaltyRevenue (unitVolume unitPrice royaltyRate coveragePct takeRatePct growthPct : ℚ)
    (yearIdx : ℕ) : ℚ :=
  unitVolume * unitPrice * (royaltyRate / 100) * (coveragePct / 100) * (takeRatePct / 100) *
    (1 + growthPct / 100) ^ yearIdx

/-! ### `frontend/main.js`, `updateComparisonDisplay`

`roi = summary?.roi_percentage || 0` is rendered as `` `${roi.toFixed(1)}%` ``;
`breakeven = summary?.break_even_months || 0` is rendered as `Immediate` when 0,
`Never (>5 years)` when at least 60, and the numeric month count otherwise. -/

/-- The text written to the `simulatedROI` element. -/
def roiDisplayText (r : Option ℚ) : String := toFixed1 (r.getD 0) ++ "%"

/-- The possible texts of the `breakevenMonths` element. -/
inductive BreakevenLabel where
  | immediate
  | never5y
  | months (q : ℚ)
deriving DecidableEq

/-- The break-even branch of `updateComparisonDisplay`. -/
def breakevenDisplay (b : Option ℚ) : BreakevenLabel :=
  let breakeven := b.getD 0
  if breakeven = 0 then .immediate
  else if 60 ≤ breakeven then .never5y
  else .months breakeven

/-- Modelled from the spec: the backend financial calculator (`calculator.py`)
that produces `break_even_months` is not among the sources.  Per the spec,
break-even is the first month, interpolated linearly within a year from that
year's net cash flow, at which cumulative net profit crosses zero; `none` when
it never crosses within the horizon.  `cum` is the cumulative profit before the
current year and `idx` the number of elapsed years. -/
def breakEvenGo : ℚ → ℕ → List ℚ → Option ℚ
  | _, _, [] => none
  | cum, idx, f :: rest =>
      if 0 ≤ cum + f then
        some (12 * idx + (if f = 0 then 0 else 12 * (-cum) / f))
      else breakEvenGo (cum + f) (idx + 1) rest

/-- Modelled from the spec: break-even months over a horizon of yearly net
cash flows (7 entries for the 7-year horizon). -/
def breakEvenMonthsSpec (flows : List ℚ) : Option ℚ := breakEvenGo 0 0 flows

/-- A 7-year cash-flow series whose cumulative profit first crosses zero at
month 72, inside the 7-year horizon but past the display's 60-month cutoff. -/
def exFlows : List ℚ := [-100, 0, 0, 0, 0, 100, 0]

/-! ### Chart rendering (`charts.js`), `renderMarketGrowthChart`

`const years = ['2024', ..., '2030']` and each dataset is
`years.map(year => numbers[year] || 0)`. -/

/-- The fixed horizon years of the charts. -/
def chartYears : List ℕ := [2024, 2025, 2026, 2027, 2028, 2029, 2030]

/-- Source: `years.map(year => numbers[year] || 0)`: one data point per chart year,
a year absent from the series rendering as 0. -/
def renderedSeries (numbers : ℕ → Option ℚ) : List ℚ :=
  chartYears.map (fun y => (numbers y).getD 0)

/-- From the spec's words, for comparison with the source: a year missing from
the input series is forward-filled with the last available value rather than
reported as 0. -/
def ffGo (numbers : ℕ → Option ℚ) : ℚ → List ℕ → List ℚ
  | _, [] => []
  | last, y :: ys =>
      let v := (numbers y).getD last
      v :: ffGo numbers v ys

/-- From the spec's words: the forward-filled rendering of a series over the
chart years. -/
def forwardFillSeries (numbers : ℕ → Option ℚ) : List ℚ := ffGo numbers 0 chartYears

/-- A TAM series supplying only the first three chart years. -/
def exNumbers : ℕ → Option ℚ := fun y =>
  if y = 2024 then some 100
  else if y = 2025 then some 110
  else if y = 2026 then some 121
  else none

/-! ### `components/chatbot-section.tsx`, `handleSend`

`const lowerInput = input.toLowerCase()` is dispatched through an
`if`/`else if` chain of `includes` tests; only the branch guarded by
`includes("increase") && includes("%")` ever modifies data, multiplying every
TAM year by `(1 + percent / 100)` when `/(\d+)%/` matches and market data is
present. -/

/-- The lower-cased character sequence of the instruction text. -/
def lowerChars (s : String) : List Char := s.data.map Char.toLower

/-- Boolean list-prefix test. -/
def isPrefixB : List Char → List Char → Bool
  | [], _ => true
  | _ :: _, [] => false
  | a :: as, b :: bs => a == b && isPrefixB as bs

/-- Boolean substring test on character lists (JavaScript `String.includes`). -/
def containsSub (needle : List Char) : List Char → Bool
  | [] => needle.isEmpty
  | c :: rest => isPrefixB needle (c :: rest) || containsSub needle rest

/-- Source: `lowerInput.includes(needle)`. -/
def includes (lower : List Char) (needle : String) : Bool := containsSub needle.data lower

/-- Split off the leading run of decimal digits. -/
def digitRun : List Char → List Char × List Char
  | [] => ([], [])
  | c :: cs =>
      if c.isDigit then
        let p := digitRun cs
        (c :: p.1, p.2)
      else ([], c :: cs)

/-- Numeric value of a digit sequence (JavaScript `Number.parseInt`). -/
def digitsToNat (ds : List Char) : ℕ :=
  ds.foldl (fun n c => 10 * n + (c.toNat - 48)) 0

/-- The regular expression match `lowerInput.match(/(\d+)%/)`: the leftmost
maximal digit run immediately followed by a percent sign. -/
def percentMatch : List Char → Option ℕ
  | [] => none
  | c :: cs =>
      if c.isDigit then
        match digitRun (c :: cs) with
        | (ds, '%' :: _) => some (digitsToNat ds)
        | _ => percentMatch cs
      else percentMatch cs

/-- The market data held by the chatbot: the TAM/SAM/SOM `numbers` maps as
year-keyed association lists in insertion order. -/
structure MarketData where
  tamNumbers : List (ℕ × ℚ)
  samNumbers : List (ℕ × ℚ)
  somNumbers : List (ℕ × ℚ)
deriving DecidableEq

/-- Source: `Object.keys(updatedMarketData.TAM.numbers).forEach(year => ... Math.round(v * (1 + percent / 100)))`. -/
def applyTamIncrease (m : MarketData) (pct : ℕ) : MarketData :=
  { m with tamNumbers :=
      m.tamNumbers.map (fun p => (p.1, ((jsRound (p.2 * (1 + (pct : ℚ) / 100)) : ℤ) : ℚ))) }

/-- The kinds of assistant response `handleSend` can produce. -/
inductive ChatResponse where
  | helpMarket
  | helpCost
  | helpIncome
  | appliedIncrease (pct : ℕ)
  | summary
  | clarify
  | emptyResponse
deriving DecidableEq

/-- The dispatch chain of `handleSend`: the assistant response together with
the market data after the call (`onMarketDataChange` fires only in the
percentage-increase branch). -/
def handleSend (input : String) (md : Option MarketData) : ChatResponse × Option MarketData :=
  let lower := lowerChars input
  if includes lower "tam" || includes lower "market" then (.helpMarket, md)
  else if includes lower "cost" || includes lower "expense" then (.helpCost, md)
  else if includes lower "income" || includes lower "revenue" || includes lower "profit" then
    (.helpIncome, md)
  else if includes lower "increase" && includes lower "%" then
    match percentMatch lower, md with
    | some pct, some m => (.appliedIncrease pct, some (applyTamIncrease m pct))
    | _, _ => (.emptyResponse, md)
  else if includes lower "summary" || includes lower "overview" then (.summary, md)
  else (.clarify, md)

/-- A small market dataset for concrete evaluations of `handleSend`. -/
def exMarket : MarketData := ⟨[(2024, 100)], [], []⟩

/-! ### `frontend/main.js`, income simulator

`originalParameters` is captured once by `initializeSimulator` and
`currentParameters = { ...originalParameters }` is a value copy (all fields are
primitives).  Slider input writes single fields of `currentParameters`,
`applyScenario` rewrites fields of `currentParameters` from
`originalParameters`, and the reset button does
`currentParameters = { ...originalParameters }`. -/

/-- The parameter object built by `initializeSimulator`. -/
structure Params where
  project_name : String
  project_type : String
  annual_revenue_or_savings : ℚ
  growth_rate : ℚ
  price_per_unit : ℚ
  fleet_size_or_units : ℚ
  development_cost : ℚ
  market_coverage : ℚ
  take_rate : ℚ
  royalty_percentage : ℚ
deriving DecidableEq

/-- The slider ids installed by `buildParameterControls`. -/
inductive ParamField where
  | growth_rate
  | annual_revenue_or_savings
  | price_per_unit
  | fleet_size_or_units
  | development_cost
  | market_coverage
deriving DecidableEq

/-- The slider `input` handler: `currentParameters[config.id] = value`, except
that `annual_revenue_or_savings` stores `value * 5` (conversion back to the
5-year total). -/
def sliderEdit (p : Params) (f : ParamField) (v : ℚ) : Params :=
  match f with
  | .growth_rate => { p with growth_rate := v }
  | .annual_revenue_or_savings => { p with annual_revenue_or_savings := v * 5 }
  | .price_per_unit => { p with price_per_unit := v }
  | .fleet_size_or_units => { p with fleet_size_or_units := v }
  | .development_cost => { p with development_cost := v }
  | .market_coverage => { p with market_coverage := v }

/-- Source: `applyScenario`: the `optimistic` and `conservative` branches overwrite
three fields of the working parameters from the originals (with caps), and any
other scenario name replaces the working parameters by a copy of the
originals. -/
def applyScenario (original current : Params) (scenario : String) : Params :=
  if scenario = "optimistic" then
    { current with
        growth_rate := min (original.growth_rate * 1.5) 30
        annual_revenue_or_savings := original.annual_revenue_or_savings * 1.3
        market_coverage := min (original.market_coverage * 1.2) 100 }
  else if scenario = "conservative" then
    { current with
        growth_rate := max (original.growth_rate * 0.7) 0
        annual_revenue_or_savings := original.annual_revenue_or_savings * 0.7
        market_coverage := original.market_coverage * 0.8 }
  else original

/-- The per-analysis simulator state: the immutable baseline and the working
copy. -/
structure SimState where
  original : Params
  current : Params
deriving DecidableEq

/-- The user interactions wired up by `setupSimulatorEvents` and
`addParameterControl`: slider edits, scenario buttons, the reset button, and
running a simulation (which posts the parameters but does not change them). -/
inductive SimEvent where
  | slider (f : ParamField) (v : ℚ)
  | scenario (s : String)
  | reset
  | runSimulation

/-- One user interaction acting on the simulator state. -/
def stepSim (st : SimState) : SimEvent → SimState
  | .slider f v => { st with current := sliderEdit st.current f v }
  | .scenario s => { st with current := applyScenario st.original st.current s }
  | .reset => { st with current := st.original }
  | .runSimulation => st

/-- Source: `initializeSimulator`: store the originals and copy them into the working
set. -/
def initSim (p : Params) : SimState := ⟨p, p⟩

/-- A sequence of user interactions. -/
def runEvents (st : SimState) (evs : List SimEvent) : SimState := evs.foldl stepSim st

/-- A concrete baseline parameter set. -/
def exampleParams : Params :=
  ⟨ "Business Analysis", "revenue", 1000, 5, 10, 100, 50, 50, 10, 0⟩

/-! ### `components/market-analysis-section.tsx`

`updateMarketValue(market, year, value)` writes
`updated[market].numbers[year] = value` with no validation; `generateAnalysis`
produces the fixed `mockData` TAM/SAM/SOM tables. -/

/-- The three market series. -/
inductive MarketKey where
  | TAM
  | SAM
  | SOM
deriving DecidableEq

/-- The TAM/SAM/SOM `numbers` maps, each a year-indexed table. -/
structure MarketTable where
  tam : ℕ → ℚ
  sam : ℕ → ℚ
  som : ℕ → ℚ

/-- Source: `updateMarketValue`: replace the single entry `numbers[year]` of the named
market with the supplied value. -/
def updateMarketValue (d : MarketTable) (m : MarketKey) (year : ℕ) (v : ℚ) : MarketTable :=
  match m with
  | .TAM => { d with tam := fun y => if y = year then v else d.tam y }
  | .SAM => { d with sam := fun y => if y = year then v else d.sam y }
  | .SOM => { d with som := fun y => if y = year then v else d.som y }

/-- The `mockData.TAM.numbers` table of `generateAnalysis`. -/
def mockTam : ℕ → ℚ := fun y =>
  if y = 2024 then 5000000
  else if y = 2025 then 5250000
  else if y = 2026 then 5512500
  else if y = 2027 then 5788125
  else if y = 2028 then 6077531
  else if y = 2029 then 6381408
  else if y = 2030 then 6700478
  else 0

/-- The `mockData.SAM.numbers` table of `generateAnalysis`. -/
def mockSam : ℕ → ℚ := fun y =>
  if y = 2024 then 2500000
  else if y = 2025 then 2625000
  else if y = 2026 then 2756250
  else if y = 2027 then 2894063
  else if y = 2028 then 3038766
  else if y = 2029 then 3190704
  else if y = 2030 then 3350239
  else 0

/-- The `mockData.SOM.numbers` table of `generateAnalysis`. -/
def mockSom : ℕ → ℚ := fun y =>
  if y = 2024 then 750000
  else if y = 2025 then 787500
  else if y = 2026 then 826875
  else if y = 2027 then 868219
  else if y = 2028 then 911630
  else if y = 2029 then 957211
  else if y = 2030 then 1005072
  else 0

/-- The dataset produced by `generateAnalysis`. -/
def mockMarketTable : MarketTable := ⟨mockTam, mockSam, mockSom⟩

/-- The SOM ≤ SAM ≤ TAM ordering at one year. -/
def orderedAt (d : MarketTable) (y : ℕ) : Prop :=
  d.som y ≤ d.sam y ∧ d.sam y ≤ d.tam y

instance (d : MarketTable) (y : ℕ) : Decidable (orderedAt d y) := by
  unfold orderedAt; infer_instance

/-! ## Helper lemmas -/

/-- No single interaction changes the stored original parameters. -/
theorem stepSim_original (st : SimState) (ev : SimEvent) :
    (stepSim st ev).original = st.original := by
  cases ev <;> rfl

/-- No interaction sequence changes the stored original parameters. -/
theorem runEvents_original (evs : List SimEvent) (st : SimState) :
    (runEvents st evs).original = st.original := by
  induction evs generalizing st with
  | nil => rfl
  | cons e es ih => exact (ih (stepSim st e)).trans (stepSim_original st e)

/-! ## Claims -/

/-- C1, counterexample.  The claim says the yearly gross margin is defined as 0
when that year's revenue is 0 and that the computation never produces a
division error.  In `generateAnalysis` a SOM of 0 gives a Royalties revenue of
0, and the margin `((royaltyRevenue - yearCosts) / royaltyRevenue) * 100`
divides by that zero revenue, producing a non-finite value rather than 0. -/
theorem c1_margin_counterexample :
    royaltyRevenue 0 500 15 = 0 ∧
    royaltiesYearlyMargin 0 500 15 1000 0 = none ∧
    royaltiesYearlyMargin 0 500 15 1000 0 ≠ some 0 := by
  refine ⟨by with_unfolding_all rfl, by with_unfolding_all rfl, ?_⟩
  have h : royaltiesYearlyMargin 0 500 15 1000 0 = none := by with_unfolding_all rfl
  rw [h]
  exact fun hc => Option.noConfusion hc

/-- C1, amended.  For each of the three revenue models of `generateAnalysis`,
the yearly margin equals `((revenue - yearCosts) / revenue) * 100` whenever
that year's revenue is nonzero, and when the revenue is 0 the unguarded
division yields a non-finite JavaScript value (modelled as `none`), not 0. -/
theorem c1_margin (som price rate totalCosts : ℚ) (index : ℕ) :
    (royaltyRevenue som price rate ≠ 0 →
      royaltiesYearlyMargin som price rate totalCosts index =
        some ((royaltyRevenue som price rate - yearCosts totalCosts index) /
          royaltyRevenue som price rate * 100)) ∧
    (royaltyRevenue som price rate = 0 →
      royaltiesYearlyMargin som price rate totalCosts index = none) ∧
    (subscriptionRevenue som price rate ≠ 0 →
      subscriptionYearlyMargin som price rate totalCosts index =
        some ((subscriptionRevenue som price rate - yearCosts totalCosts index) /
          subscriptionRevenue som price rate * 100)) ∧
    (subscriptionRevenue som price rate = 0 →
      subscriptionYearlyMargin som price rate totalCosts index = none) ∧
    (singleBuyRevenue som price rate ≠ 0 →
      singleBuyYearlyMargin som price rate totalCosts index =
        some ((singleBuyRevenue som price rate - yearCosts totalCosts index) /
          singleBuyRevenue som price rate * 100)) ∧
    (singleBuyRevenue som price rate = 0 →
      singleBuyYearlyMargin som price rate totalCosts index = none) := by
  refine ⟨fun h => ?_, fun h => ?_, fun h => ?_, fun h => ?_, fun h => ?_, fun h => ?_⟩ <;>
    simp [royaltiesYearlyMargin, subscriptionYearlyMargin, singleBuyYearlyMargin,
      jsMarginPct, jsDiv, h]

/-- C1, witness for the amended theorem at concrete inputs. -/
theorem c1_margin_witness :
    royaltiesYearlyMargin 100 500 15 1000 0 =
      some ((royaltyRevenue 100 500 15 - yearCosts 1000 0) / royaltyRevenue 100 500 15 * 100) ∧
    royaltiesYearlyMargin 0 500 15 1000 0 = none :=
  ⟨(c1_margin 100 500 15 1000 0).1 (by
      have h : royaltyRevenue 100 500 15 = 1500 := by with_unfolding_all rfl
      rw [h]; norm_num),
   (c1_margin 0 500 15 1000 0).2.1 (by with_unfolding_all rfl)⟩

/-- C2, counterexample.  The claim says that when the ROI metric is absent
(total invested cost 0) the displayed ROI is a distinct sentinel and is never
rendered as a numeric 0%.  `updateComparisonDisplay` does
`roi = summary?.roi_percentage || 0` and renders `` `${roi.toFixed(1)}%` ``,
so an absent ROI displays exactly as the numeric text produced for a genuine
zero ROI. -/
theorem c2_roi_counterexample :
    roiDisplayText none = "0.0%" ∧ roiDisplayText none = roiDisplayText (some 0) := by
  exact ⟨by with_unfolding_all rfl, by with_unfolding_all rfl⟩

/-- C2, amended.  The displayed ROI is always the numeric text
`roi.toFixed(1) + "%"` with an absent `roi_percentage` defaulting to 0 (so it
renders as `0.0%`, indistinguishable from a genuine zero); the non-numeric
`Immediate` sentinel exists only in the break-even display, shown exactly when
`break_even_months` is 0 or absent. -/
theorem c2_roi_display :
    (∀ r : Option ℚ, roiDisplayText r = toFixed1 (r.getD 0) ++ "%") ∧
    roiDisplayText none = "0.0%" ∧
    breakevenDisplay none = BreakevenLabel.immediate ∧
    ∀ q : ℚ, q ≠ 0 → breakevenDisplay (some q) ≠ BreakevenLabel.immediate := by
  refine ⟨fun r => rfl, by with_unfolding_all rfl, by with_unfolding_all rfl, ?_⟩
  intro q hq
  simp only [breakevenDisplay, Option.getD_some]
  rw [if_neg hq]
  by_cases h60 : (60 : ℚ) ≤ q <;> simp [h60]

/-- C2, witness for the amended theorem at a concrete input. -/
theorem c2_roi_display_witness :
    breakevenDisplay (some 42) ≠ BreakevenLabel.immediate :=
  c2_roi_display.2.2.2 42 (by norm_num)

/-- C3, counterexample.  The claim says a year missing from the input series
is forward-filled or extrapolated rather than reported as 0.
`renderMarketGrowthChart` maps `numbers[year] || 0` over the fixed chart
years, so a series supplying only 2024 to 2026 renders 0 for 2027 onward
instead of the forward-filled value 121. -/
theorem c3_rendered_counterexample :
    exNumbers 2027 = none ∧
    renderedSeries exNumbers = [100, 110, 121, 0, 0, 0, 0] ∧
    forwardFillSeries exNumbers = [100, 110, 121, 121, 121, 121, 121] ∧
    renderedSeries exNumbers ≠ forwardFillSeries exNumbers := by
  refine ⟨by decide, by decide, by decide, by decide⟩

/-- C3, amended.  Each rendered TAM/SAM/SOM series has exactly one value for
each of the 7 consecutive horizon years, in year order, but a year missing
from the input series is rendered as 0 by the `|| 0` fallback rather than
being forward-filled or extrapolated. -/
theorem c3_rendered (numbers : ℕ → Option ℚ) :
    (renderedSeries numbers).length = 7 ∧
    ∀ i : ℕ, i < 7 → (renderedSeries numbers).getD i 0 = (numbers (chartYears.getD i 0)).getD 0 := by
  constructor
  · rfl
  · intro i hi
    interval_cases i <;> rfl

/-- C3, witness for the amended theorem at a concrete input. -/
theorem c3_rendered_witness :
    (renderedSeries exNumbers).getD 3 0 = (exNumbers (chartYears.getD 3 0)).getD 0 :=
  (c3_rendered exNumbers).2 3 (by norm_num)

/-- C4, counterexample.  The claim says an instruction of the form verb +
field alias + percentage, such as `increase TAM by 10%`, produces the
percentage-increase delta on the aliased field.  In `handleSend` any
instruction containing `tam` is captured by the first help-text branch, so
`increase tam by 10%` changes no data at all. -/
theorem c4_extractor_counterexample :
    includes (lowerChars "increase tam by 10%") "increase" = true ∧
    includes (lowerChars "increase tam by 10%") "tam" = true ∧
    percentMatch (lowerChars "increase tam by 10%") = some 10 ∧
    handleSend "increase tam by 10%" (some exMarket) = (ChatResponse.helpMarket, some exMarket) ∧
    (handleSend "increase tam by 10%" (some exMarket)).2 ≠ some (applyTamIncrease exMarket 10) := by
  refine ⟨by decide, by decide, by decide, by decide, ?_⟩
  have h1 : (handleSend "increase tam by 10%" (some exMarket)).2 = some exMarket := by decide
  have h2 : applyTamIncrease exMarket 10 = ⟨[(2024, 110)], [], []⟩ := by with_unfolding_all rfl
  intro hc
  rw [h1, h2] at hc
  simp only [exMarket, Option.some.injEq, MarketData.mk.injEq] at hc
  have := hc.1
  simp only [List.cons.injEq, Prod.mk.injEq] at this
  exact absurd this.1.2 (by norm_num)

/-- C4, amended.  Only an instruction that contains `increase` and a
digit-percentage while containing none of the topic keywords (`tam`,
`market`, `cost`, `expense`, `income`, `revenue`, `profit`) reaches the
mutating branch; there it multiplies every TAM year by `(1 + pct / 100)`
(rounded) regardless of which field the instruction named.  Instructions that
name the field alias, such as `increase TAM by 10%`, receive a help response
and modify nothing. -/
theorem c4_extractor (input : String) (m : MarketData) (pct : ℕ)
    (h1 : includes (lowerChars input) "tam" = false)
    (h2 : includes (lowerChars input) "market" = false)
    (h3 : includes (lowerChars input) "cost" = false)
    (h4 : includes (lowerChars input) "expense" = false)
    (h5 : includes (lowerChars input) "income" = false)
    (h6 : includes (lowerChars input) "revenue" = false)
    (h7 : includes (lowerChars input) "profit" = false)
    (h8 : includes (lowerChars input) "increase" = true)
    (h9 : includes (lowerChars input) "%" = true)
    (h10 : percentMatch (lowerChars input) = some pct) :
    handleSend input (some m) = (ChatResponse.appliedIncrease pct, some (applyTamIncrease m pct)) := by
  simp [handleSend, h1, h2, h3, h4, h5, h6, h7, h8, h9, h10]

/-- C4, witness for the amended theorem at a concrete input. -/
theorem c4_extractor_witness :
    handleSend "increase it by 10%" (some exMarket) =
      (ChatResponse.appliedIncrease 10, some (applyTamIncrease exMarket 10)) :=
  c4_extractor "increase it by 10%" exMarket 10 (by decide) (by decide) (by decide) (by decide)
    (by decide) (by decide) (by decide) (by decide) (by decide) (by decide)

/-- C5 (confirmed).  No sequence of slider edits, scenario applications,
simulation runs or resets ever changes the original baseline parameter set
captured at initialization, and a subsequent reset restores the working
parameter set to exactly that original baseline. -/
theorem c5_simulation_isolation (p : Params) (evs : List SimEvent) :
    (runEvents (initSim p) evs).original = p ∧
    (runEvents (initSim p) (evs ++ [SimEvent.reset])).current = p := by
  constructor
  · exact runEvents_original evs (initSim p)
  · have h : runEvents (initSim p) (evs ++ [SimEvent.reset]) =
        stepSim (runEvents (initSim p) evs) SimEvent.reset := by
      simp [runEvents, List.foldl_append]
    rw [h]
    exact runEvents_original evs (initSim p)

/-- C6, counterexample.  The claim says every produced or edited market
dataset satisfies SOM ≤ SAM ≤ TAM for every horizon year and that violating
edits clamp SAM and TAM upward.  `updateMarketValue` writes the supplied value
with no validation: editing SOM 2024 of the generated dataset to 10,000,000
leaves SAM 2024 at 2,500,000 and TAM 2024 at 5,000,000, violating the
ordering with no clamping. -/
theorem c6_ordering_counterexample :
    orderedAt mockMarketTable 2024 ∧
    ¬ orderedAt (updateMarketValue mockMarketTable MarketKey.SOM 2024 10000000) 2024 ∧
    (updateMarketValue mockMarketTable MarketKey.SOM 2024 10000000).sam 2024 = 2500000 ∧
    (updateMarketValue mockMarketTable MarketKey.SOM 2024 10000000).tam 2024 = 5000000 := by
  refine ⟨by decide, by decide, by decide, by decide⟩

/-- C6, amended.  The dataset generated by `generateAnalysis` satisfies
SOM ≤ SAM ≤ TAM at every horizon year, but `updateMarketValue` simply stores
the supplied value at the named market and year and leaves every other entry
unchanged — supplied values that violate the ordering are accepted as-is with
no upward clamping of SAM or TAM. -/
theorem c6_ordering :
    (∀ y ∈ chartYears, orderedAt mockMarketTable y) ∧
    ∀ (d : MarketTable) (y : ℕ) (v : ℚ),
      (updateMarketValue d MarketKey.SOM y v).som y = v ∧
      (updateMarketValue d MarketKey.SOM y v).sam = d.sam ∧
      (updateMarketValue d MarketKey.SOM y v).tam = d.tam ∧
      (updateMarketValue d MarketKey.TAM y v).tam y = v ∧
      (updateMarketValue d MarketKey.SAM y v).sam y = v ∧
      ∀ y' : ℕ, y' ≠ y → (updateMarketValue d MarketKey.SOM y v).som y' = d.som y' := by
  constructor
  · decide
  · intro d y v
    refine ⟨by simp [updateMarketValue], rfl, rfl, by simp [updateMarketValue],
      by simp [updateMarketValue], ?_⟩
    intro y' hy
    simp [updateMarketValue, hy]

/-- C6, witness for the amended theorem at concrete inputs. -/
theorem c6_ordering_witness :
    orderedAt mockMarketTable 2024 ∧
    (updateMarketValue mockMarketTable MarketKey.SOM 2024 5).som 2025 = mockMarketTable.som 2025 :=
  ⟨c6_ordering.1 2024 (by decide),
   (c6_ordering.2 mockMarketTable 2024 5).2.2.2.2.2 2025 (by norm_num)⟩

/-- C7, counterexample.  The claim says the displayed break-even is a
non-numeric beyond-horizon label exactly when cumulative net profit never
crosses zero within the 7-year horizon.  For a cash-flow series crossing zero
at month 72 — inside the 7-year (84-month) horizon — the spec-modelled
calculator reports 72 months, yet the display shows the `Never (>5 years)`
label because `updateComparisonDisplay` cuts off at 60 months. -/
theorem c7_breakeven_counterexample :
    breakEvenMonthsSpec exFlows = some 72 ∧
    breakevenDisplay (breakEvenMonthsSpec exFlows) = BreakevenLabel.never5y ∧
    ¬ ((breakevenDisplay (breakEvenMonthsSpec exFlows) = BreakevenLabel.never5y) ↔
        breakEvenMonthsSpec exFlows = none) := by
  have h : breakEvenMonthsSpec exFlows = some 72 := by with_unfolding_all rfl
  have hd : breakevenDisplay (breakEvenMonthsSpec exFlows) = BreakevenLabel.never5y := by
    rw [h]; with_unfolding_all rfl
  refine ⟨h, hd, fun hiff => ?_⟩
  have := hiff.mp hd
  rw [h] at this
  exact Option.noConfusion this

/-- C7, amended.  The displayed break-even is the `Never (>5 years)` label
exactly when the reported break-even month count is at least 60 — a 5-year
cutoff, not the 7-year horizon — while a value of 0 (or an absent value)
displays as `Immediate` and any other value displays as the numeric month
count. -/
theorem c7_breakeven_display (b : ℚ) (hb : b ≠ 0) :
    breakevenDisplay (some b) = BreakevenLabel.never5y ↔ 60 ≤ b := by
  simp only [breakevenDisplay, Option.getD_some]
  rw [if_neg hb]
  by_cases h60 : (60 : ℚ) ≤ b <;> simp [h60]

/-- C7, witness for the amended theorem at a concrete input. -/
theorem c7_breakeven_display_witness :
    breakevenDisplay (some 72) = BreakevenLabel.never5y ↔ (60 : ℚ) ≤ 72 :=
  c7_breakeven_display 72 (by norm_num)

/-- C8 (confirmed).  An instruction matching none of the dispatch templates of
`handleSend` — no topic keyword, no increase-percentage pattern, no summary
request — produces the clarifying response and leaves the market data
unchanged; no error is raised. -/
theorem c8_unrecognized (input : String) (md : Option MarketData)
    (h1 : includes (lowerChars input) "tam" = false)
    (h2 : includes (lowerChars input) "market" = false)
    (h3 : includes (lowerChars input) "cost" = false)
    (h4 : includes (lowerChars input) "expense" = false)
    (h5 : includes (lowerChars input) "income" = false)
    (h6 : includes (lowerChars input) "revenue" = false)
    (h7 : includes (lowerChars input) "profit" = false)
    (h8 : (includes (lowerChars input) "increase" && includes (lowerChars input) "%") = false)
    (h9 : includes (lowerChars input) "summary" = false)
    (h10 : includes (lowerChars input) "overview" = false) :
    handleSend input md = (ChatResponse.clarify, md) := by
  simp [handleSend, h1, h2, h3, h4, h5, h6, h7, h8, h9, h10]

/-- C8, witness at the spec's own example instruction. -/
theorem c8_unrecognized_witness :
    handleSend "make it better" none = (ChatResponse.clarify, none) :=
  c8_unrecognized "make it better" none (by decide) (by decide) (by decide) (by decide)
    (by decide) (by decide) (by decide) (by decide) (by decide) (by decide)

/-- C9, counterexample.  The claim says the ROYALTY revenue for each horizon
year equals unit volume × unit price × royalty rate × market-coverage
fraction × take-rate fraction, compounded yearly by the growth rate.  The
Royalties revenue of `generateAnalysis` is
`Math.round(salesVolume * avgBundlePrice * (royaltyRate / 100))` with no
coverage or take-rate factor and no growth compounding: for a flat SOM of
100,000, year index 1, even with coverage and take-rate at 100% and 5% growth
the spec formula gives 1,575,000 while the code gives 1,500,000. -/
theorem c9_royalty_counterexample :
    royaltiesYearlyRevenue 100000 500 15 = 1500000 ∧
    specRoyaltyRevenue ((salesVolume 100000 : ℤ) : ℚ) 500 15 100 100 5 1 = 1575000 ∧
    ((royaltiesYearlyRevenue 100000 500 15 : ℤ) : ℚ) ≠
      specRoyaltyRevenue ((salesVolume 100000 : ℤ) : ℚ) 500 15 100 100 5 1 := by
  have h1 : royaltiesYearlyRevenue 100000 500 15 = 1500000 := by with_unfolding_all rfl
  have h2 : specRoyaltyRevenue ((salesVolume 100000 : ℤ) : ℚ) 500 15 100 100 5 1 = 1575000 := by
    with_unfolding_all rfl
  refine ⟨h1, h2, ?_⟩
  rw [h1, h2]
  norm_num

/-- C9, amended.  For every year of the generated Royalties model, the revenue
equals `Math.round(Math.round(som * 0.2) * price * (rate / 100))` — 20% of
that year's SOM as unit volume times unit price times the royalty fraction —
independent of the cost series and of the year index, with growth entering
only through the SOM series itself and with no market-coverage or take-rate
factor. -/
theorem c9_royalty_revenue (price rate totalCosts som : ℚ) (idx : ℕ) (series : List (ℕ × ℚ)) :
    (genRoyalties price rate totalCosts idx series).map (fun e => e.2.1) =
      series.map (fun p => royaltiesYearlyRevenue p.2 price rate) ∧
    royaltiesYearlyRevenue som price rate =
      jsRound (((jsRound (som * 0.2) : ℤ) : ℚ) * price * (rate / 100)) := by
  constructor
  · induction series generalizing idx with
    | nil => rfl
    | cons p rest ih => simp [genRoyalties, ih]
  · rfl

/-- C10 (confirmed).  The `optimistic` scenario never sets the growth rate
above 30 nor the market coverage above 100, the `conservative` scenario never
sets the growth rate below 0, and any other scenario name replaces the
working parameters by exactly the original baseline parameters. -/
theorem c10_scenarios (orig cur : Params) (s : String) :
    (applyScenario orig cur "optimistic").growth_rate ≤ 30 ∧
    (applyScenario orig cur "optimistic").market_coverage ≤ 100 ∧
    0 ≤ (applyScenario orig cur "conservative").growth_rate ∧
    (s ≠ "optimistic" → s ≠ "conservative" → applyScenario orig cur s = orig) := by
  refine ⟨?_, ?_, ?_, ?_⟩
  · show (applyScenario orig cur "optimistic").growth_rate ≤ 30
    simp only [applyScenario, if_pos rfl]
    exact min_le_right _ _
  · simp only [applyScenario, if_pos rfl]
    exact min_le_right _ _
  · have hne : ("conservative" : String) ≠ "optimistic" := by decide
    simp only [applyScenario, if_neg hne, if_pos rfl]
    exact le_max_right _ _
  · intro hs1 hs2
    simp only [applyScenario, if_neg hs1, if_neg hs2]

/-- C10, witness at a concrete scenario name. -/
theorem c10_scenarios_witness :
    applyScenario exampleParams exampleParams "current" = exampleParams :=
  (c10_scenarios exampleParams exampleParams "current").2.2.2 (by decide) (by decide)

end BMW
